import Mathlib

/-!
Shallow embedding of src/src/Pipeline/s5_Model_Training.py.

Numeric values are modelled by exact rationals, except the square root
taken for RMSE, which lives in the reals. The sklearn metric functions the
script calls (mean_squared_error, mean_absolute_error, r2_score) are
embedded by their documented mathematical definitions, including the
r2_score edge-case branches for a zero numerator or denominator. The
sklearn search and estimator machinery train_model delegates to is kept
abstract (the script never looks inside it), and the mlflow client is
modelled as a trace of logging events applied to a server-side run state.
-/

namespace AirfarePrediction

/-- Model of a 2-dimensional numpy array, as produced by np.array on a
pandas DataFrame: a list of rows together with an explicit column count
(shape[1]), every row having exactly that many entries. -/
structure NDArray2 where
  data : List (List ℚ)
  ncols : Nat
  rect : ∀ row ∈ data, row.length = ncols

/-- Model of numpy shape[0]: the number of rows. -/
def NDArray2.nrows (a : NDArray2) : Nat := a.data.length

/-- Entry lookup: row i, column j, when both are in range. -/
def NDArray2.entry? (a : NDArray2) (i j : Nat) : Option ℚ :=
  (a.data[i]?).bind fun row => row[j]?

/-- Elementwise squared errors (y_i - yhat_i)^2, shared by
mean_squared_error and the r2_score numerator. -/
def sqErrors (actual predicted : List ℚ) : List ℚ :=
  List.zipWith (fun a b => (a - b) ^ 2) actual predicted

/-- Embedding of sklearn.metrics.mean_squared_error: the mean of the
squared errors over the n samples. -/
def mean_squared_error (actual predicted : List ℚ) : ℚ :=
  (sqErrors actual predicted).sum / (actual.length : ℚ)

/-- Embedding of sklearn.metrics.mean_absolute_error: the mean of the
absolute errors over the n samples. -/
def mean_absolute_error (actual predicted : List ℚ) : ℚ :=
  (List.zipWith (fun a b => |a - b|) actual predicted).sum / (actual.length : ℚ)

/-- Residual sum of squares, the numerator of the r2_score fraction. -/
def ssRes (actual predicted : List ℚ) : ℚ := (sqErrors actual predicted).sum

/-- Sample mean of the target values, as np.average computes it. -/
def yMean (actual : List ℚ) : ℚ := actual.sum / (actual.length : ℚ)

/-- Total sum of squares around the mean, the denominator of the r2_score
fraction. -/
def ssTot (actual : List ℚ) : ℚ :=
  (actual.map (fun a => (a - yMean actual) ^ 2)).sum

/-- Embedding of sklearn.metrics.r2_score with its edge-case branches: a
zero numerator gives 1.0, a zero denominator with a nonzero numerator
gives 0.0, and otherwise the score is 1 - ssRes/ssTot. sklearn
additionally declares the score undefined (NaN) for fewer than two
samples, so theorems about r2 carry the hypothesis 2 <= n marking the
region where this total embedding is faithful. -/
def r2_score (actual predicted : List ℚ) : ℚ :=
  if ssRes actual predicted = 0 then 1
  else if ssTot actual = 0 then 0
  else 1 - ssRes actual predicted / ssTot actual

/-- The five values returned by calculate_metrics, in source order. -/
structure Metrics where
  mse : ℚ
  mae : ℚ
  rmse : ℝ
  r2 : ℚ
  aR2 : ℚ

/-- Embedding of ModelTrainerOptimizerClass.calculate_metrics: MSE, MAE,
RMSE = sqrt MSE, R2, and adjusted R2 computed as
1 - (1 - r2) * (n - 1) / (n - p - 1) with n = len(actual_y) and
p = actual_X.shape[1], the integer differences n - 1 and n - p - 1 taken
in ZZ exactly as Python int arithmetic takes them. -/
noncomputable def calculate_metrics (actual_X : NDArray2)
    (actual_y predicted_y : List ℚ) : Metrics :=
  let mse := mean_squared_error actual_y predicted_y
  let mae := mean_absolute_error actual_y predicted_y
  let rmse := Real.sqrt (mse : ℝ)
  let r2 := r2_score actual_y predicted_y
  let n : ℤ := (actual_y.length : ℤ)
  let p : ℤ := (actual_X.ncols : ℤ)
  let aR2 : ℚ := 1 - (1 - r2) * ((n - 1 : ℤ) : ℚ) / ((n - p - 1 : ℤ) : ℚ)
  { mse := mse, mae := mae, rmse := rmse, r2 := r2, aR2 := aR2 }

/-- Embedding of ModelTrainerOptimizerClass.load_y_train, parameterized by
the table pd.read_csv produced: np.array(df).ravel() flattens the
2-dimensional array row-major (C order) into one flat vector. -/
def load_y_train (df : NDArray2) : List ℚ := df.data.flatten

/-- Hyperparameter assignment: hyperparameter name to chosen value. -/
abbrev HyperParams := List (String × ℚ)

/-- Model of a Python sklearn estimator object as far as the script
inspects it directly: the name of its class and its hyperparameters. -/
structure SKModel where
  className : String
  params : HyperParams

/-- Model of the instance built by ElasticNet() in the entry point: an
object whose class is named ElasticNet. -/
def elasticNetInstance : SKModel :=
  { className := "ElasticNet", params := [] }

/-- Embedding of ModelTrainerOptimizerClass.get_Model_Name:
str(model.__class__.__name__), a pure attribute read. -/
def get_Model_Name (model : SKModel) : String := model.className

/-- Abstract interface for the sklearn behaviors train_model delegates
to: configuring an estimator with a hyperparameter setting, fitting on
(X, y), predicting, and the mean cv-fold cross-validated score that
RandomizedSearchCV assigns to a candidate setting for a given template
and training set. The script treats all four as black boxes. -/
structure MLBackend (F : Type) where
  setParams : F → HyperParams → F
  fit : F → List (List ℚ) → List ℚ → F
  predict : F → List (List ℚ) → List ℚ
  cvMeanScore : Nat → F → List (List ℚ) → List ℚ → HyperParams → ℚ

/-- The two attributes of a fitted RandomizedSearchCV object the script
reads. -/
structure SearchResult (F : Type) where
  best_estimator_ : F
  best_params_ : HyperParams

/-- Embedding of RandomizedSearchCV(estimator, param_distributions, cv).fit:
the candidate settings sampled from param_distributions are an explicit
argument (the library samples them randomly and no seed is fixed); the
best candidate is the first one attaining the maximal mean cross-validated
score (numpy argmax tie-breaking); with refit=True, the default, the
chosen estimator is refit on the full training set and exposed as
best_estimator_. Returns none when there are no candidates (the library
raises there). -/
def randomizedSearchCVFit {F : Type} (be : MLBackend F) (estimator : F)
    (candidates : List HyperParams) (cv : Nat)
    (X : List (List ℚ)) (y : List ℚ) : Option (SearchResult F) :=
  match candidates.argmax (be.cvMeanScore cv estimator X y) with
  | none => none
  | some best =>
      some { best_estimator_ := be.fit (be.setParams estimator best) X y
             best_params_ := best }

/-- Embedding of ModelTrainerOptimizerClass.train_model: runs
RandomizedSearchCV with cv=5 on the already-loaded training set, reads
best_estimator_ and best_params_, refits the best estimator on the entire
training set, predicts on that same training set, and returns the triple
(best_model, best_params, predicted_y). -/
def train_model {F : Type} (be : MLBackend F) (X_train : List (List ℚ))
    (y_train : List ℚ) (model : F) (candidates : List HyperParams) :
    Option (F × HyperParams × List ℚ) :=
  match randomizedSearchCVFit be model candidates 5 X_train y_train with
  | none => none
  | some random_search =>
      let best_model := random_search.best_estimator_
      let best_params := random_search.best_params_
      let refit_model := be.fit best_model X_train y_train
      let predicted_y := be.predict refit_model X_train
      some (refit_model, best_params, predicted_y)

/-- One mlflow client call inside the run scope of log_results; alpha is
the numeric type of logged metric values (floats in the source). -/
inductive MLflowEvent (α : Type) where
  | logMetric : String → α → MLflowEvent α
  | logParam : String → String → MLflowEvent α
  | logModel : SKModel → String → MLflowEvent α

/-- State of a tracking run as the server sees it: the entries persisted
so far, in the order logged, and whether the run scope has been
closed/finalized. -/
structure RunState (α : Type) where
  runName : String
  metrics : List (String × α)
  runParams : List (String × String)
  artifacts : List (SKModel × String)
  closed : Bool

/-- Server effect of one successful client call. -/
def applyEvent {α : Type} (s : RunState α) : MLflowEvent α → RunState α
  | .logMetric k v => { s with metrics := s.metrics ++ [(k, v)] }
  | .logParam k v => { s with runParams := s.runParams ++ [(k, v)] }
  | .logModel m name => { s with artifacts := s.artifacts ++ [(m, name)] }

/-- Fresh run opened by mlflow.start_run(run_name=...). -/
def initialRun {α : Type} (runName : String) : RunState α :=
  { runName := runName, metrics := [], runParams := [], artifacts := []
    closed := false }

/-- Server effect of a sequence of successful client calls. -/
def processEvents {α : Type} (s : RunState α) (calls : List (MLflowEvent α)) :
    RunState α :=
  calls.foldl applyEvent s

/-- The mlflow calls issued inside the with-block of
MLflowLoggerClass.log_results, in source order: five log_metric calls
under the fixed keys, one log_param call per best parameter under the
"Best "-prefixed key, and one mlflow.sklearn.log_model call storing the
model under model_name ++ "_model". -/
def log_results_calls {α : Type} (model_name : String) (best_model : SKModel)
    (best_params : List (String × String)) (mse mae rmse r2 aR2 : α) :
    List (MLflowEvent α) :=
  [MLflowEvent.logMetric "MSE" mse,
   MLflowEvent.logMetric "MAE" mae,
   MLflowEvent.logMetric "RMSE" rmse,
   MLflowEvent.logMetric "R2" r2,
   MLflowEvent.logMetric "Adjusted R2" aR2]
  ++ best_params.map (fun kv => MLflowEvent.logParam ("Best " ++ kv.1) kv.2)
  ++ [MLflowEvent.logModel best_model (model_name ++ "_model")]

/-- Execution of a with mlflow.start_run(...) scope with an optional
injected failure: the run is opened; the calls execute in order, each
persisting its entry on the tracking server when it succeeds; when the
call at index failAt fails, the calls after it are not executed (the
exception propagates out of the with-block), and the entries already
persisted remain on the server; the with-statement closes/finalizes the
run on every exit path, normal or exceptional. -/
def runScope {α : Type} (runName : String) (calls : List (MLflowEvent α))
    (failAt : Option Nat) : RunState α :=
  let executed := match failAt with
    | none => calls
    | some i => calls.take i
  let s := processEvents (initialRun runName) executed
  { s with closed := true }

/-- Embedding of MLflowLoggerClass.log_results (the prints are out of
scope): the server-visible run state after the call, with failAt
injecting a failure into the client call at that index (none means every
call succeeds). -/
def log_results {α : Type} (model_name : String) (best_model : SKModel)
    (best_params : List (String × String)) (mse mae rmse r2 aR2 : α)
    (failAt : Option Nat) : RunState α :=
  runScope model_name
    (log_results_calls model_name best_model best_params mse mae rmse r2 aR2)
    failAt

/-- Concrete 2-row, 2-column feature matrix used at concrete inputs. -/
def exX22 : NDArray2 :=
  { data := [[0, 0], [2, 0]], ncols := 2, rect := by simp }

/-- Concrete 2-row, 1-column feature matrix used at concrete inputs. -/
def exX21 : NDArray2 :=
  { data := [[0], [2]], ncols := 1, rect := by simp }

/-- Concrete 3-row, 1-column feature matrix used at concrete inputs. -/
def exX31 : NDArray2 :=
  { data := [[0], [1], [2]], ncols := 1, rect := by simp }

/-- Concrete 100-row, 1-column feature matrix used at concrete inputs. -/
def exX1001 : NDArray2 :=
  { data := List.replicate 100 [0], ncols := 1
    rect := by intro row hrow; rw [List.eq_of_mem_replicate hrow]; rfl }

/-- Concrete target vector of 100 samples: fifty 0s then fifty 2s. -/
def exY100 : List ℚ := List.replicate 50 0 ++ List.replicate 50 2

/-- Concrete prediction vector of 100 samples: all 1s. -/
def exYhat100 : List ℚ := List.replicate 100 1

/-- Concrete 2-row, 2-column table with two target columns, used to show
the silent row-major merge in load_y_train. -/
def exDf : NDArray2 :=
  { data := [[1, 2], [3, 4]], ncols := 2, rect := by simp }

/-- Concrete instantiation of the abstract sklearn interface used at
concrete train_model inputs: an estimator is identified with its
hyperparameter assignment, fitting keeps it, prediction returns one 0
per sample row, and the cross-validated score of a candidate is its
length. -/
def exBackend : MLBackend HyperParams :=
  { setParams := fun _ p => p
    fit := fun f _ _ => f
    predict := fun _ X => X.map (fun _ => 0)
    cvMeanScore := fun _ _ _ _ c => (c.length : ℚ) }

/-- Every squared error is nonnegative. -/
theorem sqErrors_mem_nonneg :
    ∀ (actual predicted : List ℚ), ∀ x ∈ sqErrors actual predicted, 0 ≤ x
  | [], _ => by simp [sqErrors]
  | _ :: _, [] => by simp [sqErrors]
  | a :: as, b :: bs => by
      intro x hx
      rw [sqErrors, List.zipWith_cons_cons] at hx
      rcases List.mem_cons.mp hx with h | h
      · subst h; positivity
      · exact sqErrors_mem_nonneg as bs x h

/-- Sum of the squared errors is nonnegative. -/
theorem sqErrors_sum_nonneg (actual predicted : List ℚ) :
    0 ≤ (sqErrors actual predicted).sum :=
  List.sum_nonneg (sqErrors_mem_nonneg actual predicted)

/-- Total sum of squares around the mean is nonnegative. -/
theorem ssTot_nonneg (actual : List ℚ) : 0 ≤ ssTot actual := by
  apply List.sum_nonneg
  intro x hx
  obtain ⟨a, -, rfl⟩ := List.mem_map.mp hx
  positivity

/-- Branches of r2_score never exceed 1. -/
theorem r2_score_le_one (actual predicted : List ℚ) :
    r2_score actual predicted ≤ 1 := by
  rw [r2_score]
  split_ifs with h1 h2
  · exact le_refl 1
  · norm_num
  · have hnum : 0 ≤ ssRes actual predicted := sqErrors_sum_nonneg actual predicted
    have hden : 0 ≤ ssTot actual := ssTot_nonneg actual
    have : 0 ≤ ssRes actual predicted / ssTot actual := div_nonneg hnum hden
    linarith

/-- Claim C1: for every target vector of length n, prediction vector of
length n, and feature matrix with p columns, calculate_metrics returns
exactly the five values MSE, MAE, RMSE = sqrt MSE, R2, and adjusted R2
with aR2 = 1 - (1 - R2) * (n - 1) / (n - p - 1), n the sample count and
p the feature count. -/
theorem calculate_metrics_formula (actual_X : NDArray2)
    (actual_y predicted_y : List ℚ) (n p : Nat)
    (hy : actual_y.length = n) (hpred : predicted_y.length = n)
    (hX : actual_X.ncols = p) :
    calculate_metrics actual_X actual_y predicted_y =
      { mse := mean_squared_error actual_y predicted_y
        mae := mean_absolute_error actual_y predicted_y
        rmse := Real.sqrt ((mean_squared_error actual_y predicted_y : ℚ) : ℝ)
        r2 := r2_score actual_y predicted_y
        aR2 := 1 - (1 - r2_score actual_y predicted_y) * ((n : ℚ) - 1) /
          ((n : ℚ) - (p : ℚ) - 1) } := by
  subst hy hX
  simp only [calculate_metrics]
  congr 1
  push_cast
  ring

/-- Witness for claim C1 at a concrete input: two samples, one feature
column. -/
theorem calculate_metrics_formula_witness :
    calculate_metrics exX21 [0, 2] [0, 4] =
      { mse := mean_squared_error [0, 2] [0, 4]
        mae := mean_absolute_error [0, 2] [0, 4]
        rmse := Real.sqrt ((mean_squared_error [0, 2] [0, 4] : ℚ) : ℝ)
        r2 := r2_score [0, 2] [0, 4]
        aR2 := 1 - (1 - r2_score [0, 2] [0, 4]) * (((2 : Nat) : ℚ) - 1) /
          (((2 : Nat) : ℚ) - ((1 : Nat) : ℚ) - 1) } :=
  calculate_metrics_formula exX21 [0, 2] [0, 4] 2 1 rfl rfl rfl

/-- Claim C3: for every feature matrix and target vector with equal row
count and a matching prediction vector (with at least two samples, below
which sklearn declares R2 undefined), the metric bundle satisfies
MSE >= 0, RMSE = sqrt MSE exactly, and R2 <= 1. -/
theorem calculate_metrics_bounds (actual_X : NDArray2)
    (actual_y predicted_y : List ℚ)
    (hrows : actual_X.nrows = actual_y.length)
    (hlen : actual_y.length = predicted_y.length)
    (hn : 2 ≤ actual_y.length) :
    0 ≤ (calculate_metrics actual_X actual_y predicted_y).mse ∧
    (calculate_metrics actual_X actual_y predicted_y).rmse =
      Real.sqrt (((calculate_metrics actual_X actual_y predicted_y).mse : ℚ) : ℝ) ∧
    (calculate_metrics actual_X actual_y predicted_y).r2 ≤ 1 := by
  refine ⟨?_, rfl, ?_⟩
  · show (0 : ℚ) ≤ mean_squared_error actual_y predicted_y
    exact div_nonneg (sqErrors_sum_nonneg actual_y predicted_y)
      (Nat.cast_nonneg actual_y.length)
  · exact r2_score_le_one actual_y predicted_y

/-- Witness for claim C3 at a concrete input: two samples, one feature
column. -/
theorem calculate_metrics_bounds_witness :
    0 ≤ (calculate_metrics exX21 [0, 2] [0, 4]).mse ∧
    (calculate_metrics exX21 [0, 2] [0, 4]).rmse =
      Real.sqrt (((calculate_metrics exX21 [0, 2] [0, 4]).mse : ℚ) : ℝ) ∧
    (calculate_metrics exX21 [0, 2] [0, 4]).r2 ≤ 1 :=
  calculate_metrics_bounds exX21 [0, 2] [0, 4] rfl rfl (by norm_num)

/-- Claim C10: calculate_metrics reads its feature-matrix argument only
through the column count: two matrices with the same number of columns
give identical metric bundles for any fixed target and prediction
vectors, whatever their row counts and entries. -/
theorem calculate_metrics_depends_only_on_ncols (X1 X2 : NDArray2)
    (actual_y predicted_y : List ℚ) (h : X1.ncols = X2.ncols) :
    calculate_metrics X1 actual_y predicted_y =
      calculate_metrics X2 actual_y predicted_y := by
  simp only [calculate_metrics, h]

/-- Witness for claim C10: a 2-row and a 100-row matrix, both with one
column but different entries, give the same metric bundle. -/
theorem calculate_metrics_depends_only_on_ncols_witness :
    calculate_metrics exX21 [0, 2] [0, 4] =
      calculate_metrics exX1001 [0, 2] [0, 4] :=
  calculate_metrics_depends_only_on_ncols exX21 exX1001 [0, 2] [0, 4] rfl

/-- Zipping two constant lists of equal length gives a constant list. -/
theorem zipWith_replicate_same {α β γ : Type} (f : α → β → γ) (n : Nat)
    (a : α) (b : β) :
    List.zipWith f (List.replicate n a) (List.replicate n b) =
      List.replicate n (f a b) := by
  induction n with
  | zero => rfl
  | succ k ih => simp [List.replicate_succ, ih]

/-- Residual sum of squares on the concrete 100-sample input. -/
theorem ssRes_ex100 : ssRes exY100 exYhat100 = 100 := by
  have h : sqErrors exY100 exYhat100 =
      List.replicate 50 (1 : ℚ) ++ List.replicate 50 1 := by
    rw [sqErrors, exY100, exYhat100, show (100 : Nat) = 50 + 50 from rfl,
      List.replicate_add, List.zipWith_append _ _ _ _ _ (by simp),
      zipWith_replicate_same, zipWith_replicate_same]
    norm_num
  rw [ssRes, h, List.sum_append]
  norm_num [List.sum_replicate, nsmul_eq_mul]

/-- Sample mean on the concrete 100-sample target. -/
theorem yMean_ex100 : yMean exY100 = 1 := by
  rw [yMean, exY100, List.sum_append, List.length_append]
  norm_num [List.sum_replicate, List.length_replicate, nsmul_eq_mul]

/-- Total sum of squares on the concrete 100-sample target. -/
theorem ssTot_ex100 : ssTot exY100 = 100 := by
  rw [ssTot, yMean_ex100, exY100, List.map_append, List.sum_append]
  norm_num [List.map_replicate, List.sum_replicate, nsmul_eq_mul]

/-- R2 score on the concrete 100-sample input. -/
theorem r2_ex100 : r2_score exY100 exYhat100 = 0 := by
  rw [r2_score, ssRes_ex100, ssTot_ex100]
  norm_num

/-- Claim C9 counterexample: with p = 1 feature column and n = 100
samples, a target with R2 = 0 gets adjusted R2 = -1/98, which differs
from R2; the two are not equal at large n, they only approach each other.
-/
theorem aR2_eq_r2_counterexample :
    exX1001.ncols = 1 ∧ exY100.length = 100 ∧
    (calculate_metrics exX1001 exY100 exYhat100).aR2 ≠
      (calculate_metrics exX1001 exY100 exYhat100).r2 := by
  have hlen : exY100.length = 100 := by simp [exY100]
  have haR2 : (calculate_metrics exX1001 exY100 exYhat100).aR2 = -1 / 98 := by
    simp only [calculate_metrics]
    rw [r2_ex100, hlen]
    norm_num [exX1001]
  have hr2 : (calculate_metrics exX1001 exY100 exYhat100).r2 = 0 := by
    simp only [calculate_metrics]
    exact r2_ex100
  refine ⟨rfl, hlen, ?_⟩
  rw [haR2, hr2]
  norm_num

/-- Claim C9 amended: with p = 1 feature column and n >= 3 samples, the
gap between R2 and adjusted R2 is exactly (1 - R2) / (n - 2), so the two
are equal precisely when R2 = 1, and otherwise only converge as n grows.
-/
theorem aR2_vs_r2_p_one (actual_X : NDArray2) (actual_y predicted_y : List ℚ)
    (hp : actual_X.ncols = 1) (hn : 3 ≤ actual_y.length) :
    r2_score actual_y predicted_y -
        (calculate_metrics actual_X actual_y predicted_y).aR2 =
      (1 - r2_score actual_y predicted_y) /
        ((actual_y.length : ℚ) - 2) ∧
    ((calculate_metrics actual_X actual_y predicted_y).aR2 =
        r2_score actual_y predicted_y ↔
      r2_score actual_y predicted_y = 1) := by
  have hcast : (3 : ℚ) ≤ (actual_y.length : ℚ) := by exact_mod_cast hn
  have hpos : (0 : ℚ) < (actual_y.length : ℚ) - 2 := by linarith
  have hne : ((actual_y.length : ℚ) - 2) ≠ 0 := ne_of_gt hpos
  have haR2 : (calculate_metrics actual_X actual_y predicted_y).aR2 =
      1 - (1 - r2_score actual_y predicted_y) *
        ((actual_y.length : ℚ) - 1) / ((actual_y.length : ℚ) - 2) := by
    simp only [calculate_metrics, hp]
    push_cast
    ring
  have hdiff : r2_score actual_y predicted_y -
      (calculate_metrics actual_X actual_y predicted_y).aR2 =
      (1 - r2_score actual_y predicted_y) / ((actual_y.length : ℚ) - 2) := by
    rw [haR2]
    field_simp
    ring
  refine ⟨hdiff, ?_, ?_⟩
  · intro h
    have h0 : (1 - r2_score actual_y predicted_y) /
        ((actual_y.length : ℚ) - 2) = 0 := by
      rw [← hdiff, h]
      ring
    rcases div_eq_zero_iff.mp h0 with h1 | h1
    · linarith
    · exact absurd h1 hne
  · intro h
    have h0 : r2_score actual_y predicted_y -
        (calculate_metrics actual_X actual_y predicted_y).aR2 = 0 := by
      rw [hdiff, h]
      norm_num
    linarith

/-- Witness for the amended claim C9 at a concrete input: three samples,
one feature column, perfect predictions. -/
theorem aR2_vs_r2_p_one_witness :
    r2_score ([0, 1, 2] : List ℚ) [0, 1, 2] -
        (calculate_metrics exX31 [0, 1, 2] [0, 1, 2]).aR2 =
      (1 - r2_score ([0, 1, 2] : List ℚ) [0, 1, 2]) /
        ((([0, 1, 2] : List ℚ).length : ℚ) - 2) ∧
    ((calculate_metrics exX31 [0, 1, 2] [0, 1, 2]).aR2 =
        r2_score ([0, 1, 2] : List ℚ) [0, 1, 2] ↔
      r2_score ([0, 1, 2] : List ℚ) [0, 1, 2] = 1) :=
  aR2_vs_r2_p_one exX31 [0, 1, 2] [0, 1, 2] rfl (by norm_num)

/-- Claim C2 counterexample: at n = 2 samples and p = 2 feature columns,
n - p - 1 = -1 is nonpositive but nonzero, so the adjusted R2 division is
an ordinary division by a nonzero number: calculate_metrics silently
returns the finite value 3, and no NaN, Inf, or error can arise. -/
theorem aR2_nonpos_dof_counterexample :
    (((([0, 2] : List ℚ).length : ℤ) - (exX22.ncols : ℤ) - 1 ≤ 0) ∧
      ((([0, 2] : List ℚ).length : ℤ) - (exX22.ncols : ℤ) - 1 ≠ 0)) ∧
    (calculate_metrics exX22 [0, 2] [0, 4]).aR2 = 3 := by
  have hr2 : r2_score ([0, 2] : List ℚ) [0, 4] = -1 := by
    norm_num [r2_score, ssRes, ssTot, yMean, sqErrors]
  refine ⟨⟨by norm_num [exX22], by norm_num [exX22]⟩, ?_⟩
  simp only [calculate_metrics]
  rw [hr2]
  norm_num [exX22]

/-- Claim C2 amended: whenever n - p - 1 < 0 the divisor of the adjusted
R2 computation is nonzero, so no division by zero occurs and
calculate_metrics silently returns the ordinary finite value of the
formula; only n - p - 1 = 0 degenerates. -/
theorem aR2_neg_dof_ordinary (actual_X : NDArray2)
    (actual_y predicted_y : List ℚ)
    (h : (actual_y.length : ℤ) - (actual_X.ncols : ℤ) - 1 < 0) :
    ((((actual_y.length : ℤ) - (actual_X.ncols : ℤ) - 1 : ℤ) : ℚ) ≠ 0) ∧
    (calculate_metrics actual_X actual_y predicted_y).aR2 =
      1 - (1 - r2_score actual_y predicted_y) *
        ((actual_y.length : ℚ) - 1) /
        ((actual_y.length : ℚ) - (actual_X.ncols : ℚ) - 1) := by
  constructor
  · have hz : ((actual_y.length : ℤ) - (actual_X.ncols : ℤ) - 1 : ℤ) ≠ 0 :=
      ne_of_lt h
    exact_mod_cast hz
  · simp only [calculate_metrics]
    push_cast
    ring

/-- Witness for the amended claim C2 at a concrete input: two samples,
two feature columns. -/
theorem aR2_neg_dof_ordinary_witness :
    (((((([0, 2] : List ℚ)).length : ℤ) - (exX22.ncols : ℤ) - 1 : ℤ) : ℚ) ≠ 0) ∧
    (calculate_metrics exX22 [0, 2] [0, 4]).aR2 =
      1 - (1 - r2_score ([0, 2] : List ℚ) [0, 4]) *
        ((([0, 2] : List ℚ).length : ℚ) - 1) /
        ((([0, 2] : List ℚ).length : ℚ) - (exX22.ncols : ℚ) - 1) :=
  aR2_neg_dof_ordinary exX22 [0, 2] [0, 4] (by norm_num [exX22])

/-- Processing a concatenation of call lists processes them in sequence. -/
theorem processEvents_append {α : Type} (s : RunState α)
    (l1 l2 : List (MLflowEvent α)) :
    processEvents s (l1 ++ l2) = processEvents (processEvents s l1) l2 :=
  List.foldl_append applyEvent s l1 l2

/-- Processing the mapped log_param calls appends exactly the
"Best "-prefixed parameter entries and touches nothing else. -/
theorem processEvents_logParams {α : Type} (s : RunState α)
    (ps : List (String × String)) :
    processEvents s
        (ps.map (fun kv => MLflowEvent.logParam ("Best " ++ kv.1) kv.2)) =
      { s with runParams :=
          s.runParams ++ ps.map (fun kv => ("Best " ++ kv.1, kv.2)) } := by
  induction ps generalizing s with
  | nil => simp [processEvents]
  | cons kv ps ih =>
      simp only [List.map_cons, processEvents, List.foldl_cons, applyEvent]
      rw [show List.foldl applyEvent
            { s with runParams := s.runParams ++ [("Best " ++ kv.1, kv.2)] }
            (ps.map (fun kv => MLflowEvent.logParam ("Best " ++ kv.1) kv.2)) =
          processEvents
            { s with runParams := s.runParams ++ [("Best " ++ kv.1, kv.2)] }
            (ps.map (fun kv => MLflowEvent.logParam ("Best " ++ kv.1) kv.2))
          from rfl, ih]
      simp

/-- Full success-path run state produced by log_results. -/
theorem log_results_success_state {α : Type} (model_name : String)
    (best_model : SKModel) (best_params : List (String × String))
    (mse mae rmse r2 aR2 : α) :
    log_results model_name best_model best_params mse mae rmse r2 aR2 none =
      { runName := model_name
        metrics := [("MSE", mse), ("MAE", mae), ("RMSE", rmse), ("R2", r2),
          ("Adjusted R2", aR2)]
        runParams := best_params.map (fun kv => ("Best " ++ kv.1, kv.2))
        artifacts := [(best_model, model_name ++ "_model")]
        closed := true } := by
  rw [log_results, runScope, log_results_calls]
  rw [processEvents_append, processEvents_append, processEvents_logParams]
  simp [processEvents, applyEvent, initialRun]

/-- Claim C4: the run created by log_results records the five metrics
under exactly the fixed keys MSE, MAE, RMSE, R2, Adjusted R2, records
each hyperparameter under its name prefixed with "Best ", and records
exactly one model artifact under the key model_name ++ "_model". -/
theorem log_results_run_contents {α : Type} (model_name : String)
    (best_model : SKModel) (best_params : List (String × String))
    (mse mae rmse r2 aR2 : α) :
    (log_results model_name best_model best_params
        mse mae rmse r2 aR2 none).metrics =
      [("MSE", mse), ("MAE", mae), ("RMSE", rmse), ("R2", r2),
        ("Adjusted R2", aR2)] ∧
    (log_results model_name best_model best_params
        mse mae rmse r2 aR2 none).runParams =
      best_params.map (fun kv => ("Best " ++ kv.1, kv.2)) ∧
    (log_results model_name best_model best_params
        mse mae rmse r2 aR2 none).artifacts =
      [(best_model, model_name ++ "_model")] := by
  rw [log_results_success_state model_name best_model best_params
    mse mae rmse r2 aR2]
  exact ⟨rfl, rfl, rfl⟩

/-- Claim C5 counterexample: injecting a failure into the second logging
call, right after the MSE metric was logged, leaves a run that still
records the entry ("MSE", 1) while recording no parameter and no
artifact: partial state stays visible after a mid-run failure, so the
logging is not atomic. -/
theorem log_results_partial_state_counterexample :
    (log_results "ElasticNet" elasticNetInstance [("alpha", "1")]
        (1 : ℚ) 2 3 4 5 (some 1)).metrics = [("MSE", 1)] ∧
    (log_results "ElasticNet" elasticNetInstance [("alpha", "1")]
        (1 : ℚ) 2 3 4 5 (some 1)).runParams = [] ∧
    (log_results "ElasticNet" elasticNetInstance [("alpha", "1")]
        (1 : ℚ) 2 3 4 5 (some 1)).artifacts = [] :=
  ⟨rfl, rfl, rfl⟩

/-- Claim C5 amended: the run scope is closed/finalized on every exit
path, normal or failing, and after a failure in the call at index i the
server-visible run is exactly the run produced by the first i calls:
entries logged before the failure remain recorded, later ones are
absent. -/
theorem log_results_closed_and_prefix {α : Type} (model_name : String)
    (best_model : SKModel) (best_params : List (String × String))
    (mse mae rmse r2 aR2 : α) (failAt : Option Nat) :
    (log_results model_name best_model best_params
        mse mae rmse r2 aR2 failAt).closed = true ∧
    ∀ i : Nat,
      log_results model_name best_model best_params mse mae rmse r2 aR2
          (some i) =
        runScope model_name
          ((log_results_calls model_name best_model best_params
              mse mae rmse r2 aR2).take i)
          none := by
  constructor
  · cases failAt <;> rfl
  · intro i
    rfl

/-- Claim C6: whenever train_model returns a triple, the returned
hyperparameters are one of the sampled candidates and attain the maximal
mean 5-fold cross-validated score among them (the search is run with
cv = 5 on the loaded training set); the returned model is the selected
estimator refit on the entire training set; and the returned predictions
are that refit model applied to the same full training set. -/
theorem train_model_spec {F : Type} (be : MLBackend F)
    (X_train : List (List ℚ)) (y_train : List ℚ) (model : F)
    (candidates : List HyperParams) (best_model : F)
    (best_params : HyperParams) (predicted_y : List ℚ)
    (h : train_model be X_train y_train model candidates =
      some (best_model, best_params, predicted_y)) :
    best_params ∈ candidates ∧
    (∀ c ∈ candidates,
      be.cvMeanScore 5 model X_train y_train c ≤
        be.cvMeanScore 5 model X_train y_train best_params) ∧
    best_model =
      be.fit (be.fit (be.setParams model best_params) X_train y_train)
        X_train y_train ∧
    predicted_y = be.predict best_model X_train := by
  unfold train_model randomizedSearchCVFit at h
  cases harg : candidates.argmax (be.cvMeanScore 5 model X_train y_train) with
  | none =>
      rw [harg] at h
      simp at h
  | some best =>
      rw [harg] at h
      simp only [Option.some.injEq, Prod.mk.injEq] at h
      obtain ⟨hm, hp, hpred⟩ := h
      subst hp
      subst hm
      subst hpred
      have hmem : best ∈
          candidates.argmax (be.cvMeanScore 5 model X_train y_train) := by
        rw [Option.mem_def, harg]
      exact ⟨List.argmax_mem hmem,
        fun c hc => List.le_of_mem_argmax hc hmem, rfl, rfl⟩

/-- Witness for claim C6 at a concrete input: a singleton candidate grid,
which the search must select deterministically. -/
theorem train_model_spec_witness :
    ([("alpha", (1 : ℚ))] : HyperParams) ∈ [[("alpha", (1 : ℚ))]] ∧
    (∀ c ∈ ([[("alpha", (1 : ℚ))]] : List HyperParams),
      exBackend.cvMeanScore 5 [] [[0], [1]] [0, 1] c ≤
        exBackend.cvMeanScore 5 [] [[0], [1]] [0, 1] [("alpha", (1 : ℚ))]) ∧
    ([("alpha", (1 : ℚ))] : HyperParams) =
      exBackend.fit
        (exBackend.fit (exBackend.setParams [] [("alpha", (1 : ℚ))])
          [[0], [1]] [0, 1])
        [[0], [1]] [0, 1] ∧
    ([(0 : ℚ), 0] : List ℚ) =
      exBackend.predict [("alpha", (1 : ℚ))] [[0], [1]] :=
  train_model_spec exBackend [[0], [1]] [0, 1] [] [[("alpha", (1 : ℚ))]]
    [("alpha", 1)] [("alpha", 1)] [0, 0] rfl

/-- Flat index i * k + j into the row-major flattening of a rectangular
list of rows of width k reads row i, column j. -/
theorem flatten_getElem_rect {k : Nat} :
    ∀ (rows : List (List ℚ)), (∀ r ∈ rows, r.length = k) →
    ∀ i j : Nat, j < k →
      rows.flatten[i * k + j]? = (rows[i]?).bind (fun r => r[j]?) := by
  intro rows
  induction rows with
  | nil =>
      intro _ i j _
      simp
  | cons r rs ih =>
      intro hrect i j hj
      have hr : r.length = k := hrect r (List.mem_cons_self r rs)
      cases i with
      | zero =>
          simp only [List.flatten_cons, Nat.zero_mul, Nat.zero_add,
            List.getElem?_cons_zero, Option.some_bind]
          rw [List.getElem?_append, if_pos (by rw [hr]; exact hj)]
      | succ i =>
          have hk : r.length ≤ (i + 1) * k + j := by
            rw [hr, Nat.succ_mul]
            omega
          have harith : (i + 1) * k + j - r.length = i * k + j := by
            rw [hr, Nat.succ_mul]
            omega
          rw [List.flatten_cons, List.getElem?_append_right hk, harith,
            List.getElem?_cons_succ]
          exact ih (fun x hx => hrect x (List.mem_cons_of_mem r hx)) i j hj

/-- Length of the row-major flattening of a rectangular table. -/
theorem load_y_train_length (df : NDArray2) :
    (load_y_train df).length = df.nrows * df.ncols := by
  rw [load_y_train, List.length_flatten, NDArray2.nrows]
  have h : df.data.map List.length = List.replicate df.data.length df.ncols :=
    List.eq_replicate_iff.mpr
      ⟨by rw [List.length_map],
        fun b hb => by
          obtain ⟨r, hr, rfl⟩ := List.mem_map.mp hb
          exact df.rect r hr⟩
  rw [h, List.sum_replicate, smul_eq_mul]

/-- Claim C7: load_y_train returns the one-dimensional row-major
flattening of the loaded table: the vector has nrows * ncols entries and
its entry at flat index i * ncols + j is the table entry at row i,
column j; with more than one column, all columns are silently merged
row-major into the single vector rather than failing. -/
theorem load_y_train_rowMajor (df : NDArray2) (i j : Nat)
    (hi : i < df.nrows) (hj : j < df.ncols) :
    (load_y_train df).length = df.nrows * df.ncols ∧
    (load_y_train df)[i * df.ncols + j]? = df.entry? i j := by
  refine ⟨load_y_train_length df, ?_⟩
  rw [load_y_train, NDArray2.entry?]
  exact flatten_getElem_rect df.data df.rect i j hj

/-- Witness for claim C7 at a concrete input: a 2-row, 2-column target
table, read at row 1, column 0 of the merged vector. -/
theorem load_y_train_rowMajor_witness :
    (load_y_train exDf).length = exDf.nrows * exDf.ncols ∧
    (load_y_train exDf)[1 * exDf.ncols + 0]? = exDf.entry? 1 0 :=
  load_y_train_rowMajor exDf 1 0 (by norm_num [exDf, NDArray2.nrows])
    (by norm_num [exDf])

/-- Claim C8: get_Model_Name is a pure function of the model object; it
returns the literal string "ElasticNet" on an ElasticNet instance and,
for any model object, exactly the name of its class. -/
theorem get_Model_Name_exact :
    get_Model_Name elasticNetInstance = "ElasticNet" ∧
    ∀ model : SKModel, get_Model_Name model = model.className :=
  ⟨rfl, fun _ => rfl⟩

end AirfarePrediction
